import Mathlib

/-!
Verification development for the multi-database table downloader
(`app.py`): the SQLite/MySQL connector pair, their query validator,
the per-table data-query builder, and the visual-filter-to-SQL
compiler `build_visual_query`.

Python strings are modelled as Lean `String`; the Python string
primitives used by the code (`lower`, `upper`, `strip`, `startswith`,
`in` on substrings, one-character `replace`, `join`, truthiness of
optional values) are embedded below over the character list of the
string, matching CPython's behavior on the ASCII inputs the program
handles.
-/

/-- Embedding of Python `str.lower()` (character-wise, ASCII-faithful). -/
def pyLower (s : String) : String :=
  String.mk (s.data.map Char.toLower)

/-- Embedding of Python `str.upper()` (character-wise, ASCII-faithful). -/
def pyUpper (s : String) : String :=
  String.mk (s.data.map Char.toUpper)

/-- Python whitespace for `str.strip()`: space, tab, newline, carriage
return, vertical tab, form feed. -/
def pyIsSpace (c : Char) : Bool :=
  c == ' ' || c == '\t' || c == '\n' || c == '\r' || c == '\x0b' || c == '\x0c'

/-- Embedding of Python `str.strip()`: drop leading and trailing whitespace. -/
def pyStrip (s : String) : String :=
  String.mk (((s.data.dropWhile pyIsSpace).reverse.dropWhile pyIsSpace).reverse)

/-- Embedding of Python `str.startswith(p)`. -/
def pyStartswith (s p : String) : Bool :=
  p.data.isPrefixOf s.data

/-- Embedding of the Python substring test `needle in hay`. -/
def containsSub (hay needle : String) : Bool :=
  hay.data.tails.any (fun t => needle.data.isPrefixOf t)

/-- Embedding of Python `str.replace(old, new)` for a one-character `old`
(the only form the source uses: `'` → `''` and `%` → `%%`). -/
def replaceChar (s : String) (c : Char) (r : String) : String :=
  String.mk (s.data.foldr (fun ch acc => (if ch == c then r.data else [ch]) ++ acc) [])

/-- Embedding of Python `sep.join(parts)`. -/
def pyJoin (sep : String) : List String → String
  | [] => ""
  | [s] => s
  | s :: rest => s ++ sep ++ pyJoin sep rest

/-- Truthiness of a Python optional string (`None` and `""` are falsy). -/
def pyTruthyStr : Option String → Bool
  | none => false
  | some s => !(s == "")

/-- Truthiness of a Python optional integer (`None` and `0` are falsy). -/
def pyTruthyInt : Option Int → Bool
  | none => false
  | some n => !(n == 0)

/-- The prohibited-keyword list shared verbatim by both validators
(`app.py` lines 138 and 548). -/
def prohibited : List String :=
  ["insert", "update", "delete", "drop", "create", "alter", "truncate"]

/-- Outcome of `validate_query` after its pure, engine-free portion:
either an immediate rejection with the returned message, or the static
checks passed and the dry-run statement shown is handed to the engine. -/
inductive ValidationOutcome
  | rejected (msg : String)
  | explain (sql : String)
deriving DecidableEq

/-- Embedding of `SQLiteConnector.validate_query` (`app.py` 130-150):
lowercase and strip the query, require a `select` start, scan for the
first prohibited keyword as a substring, else dry-run
`EXPLAIN QUERY PLAN`. -/
def SQLiteConnector.validate_query (query : String) : ValidationOutcome :=
  let query_lower := pyStrip (pyLower query)
  if !(pyStartswith query_lower "select") then
    .rejected "Query must start with SELECT"
  else
    match prohibited.find? (fun word => containsSub query_lower word) with
    | some word => .rejected ("'" ++ pyUpper word ++ "' operations are not allowed")
    | none => .explain ("EXPLAIN QUERY PLAN " ++ query)

/-- Embedding of `MySQLConnector.validate_query` (`app.py` 540-568):
identical static checks, dry-run via `EXPLAIN`. -/
def MySQLConnector.validate_query (query : String) : ValidationOutcome :=
  let query_lower := pyStrip (pyLower query)
  if !(pyStartswith query_lower "select") then
    .rejected "Query must start with SELECT"
  else
    match prohibited.find? (fun word => containsSub query_lower word) with
    | some word => .rejected ("'" ++ pyUpper word ++ "' operations are not allowed")
    | none => .explain ("EXPLAIN " ++ query)

/-- Claim C1: for every raw SQL string whose lowercased, stripped form
starts with `select` and contains one of the prohibited substrings
anywhere (identifiers included), both the SQLite and the MySQL
`validate_query` reject with a message naming a prohibited keyword that
occurs in the query. -/
theorem validate_query_rejects_prohibited_substring (s : String)
    (hsel : pyStartswith (pyStrip (pyLower s)) "select" = true)
    (hw : ∃ w ∈ prohibited, containsSub (pyStrip (pyLower s)) w = true) :
    ∃ w ∈ prohibited, containsSub (pyStrip (pyLower s)) w = true ∧
      SQLiteConnector.validate_query s
        = .rejected ("'" ++ pyUpper w ++ "' operations are not allowed") ∧
      MySQLConnector.validate_query s
        = .rejected ("'" ++ pyUpper w ++ "' operations are not allowed") := by
  have hfind : ((prohibited.find?
      (fun word => containsSub (pyStrip (pyLower s)) word)).isSome) := by
    rcases hw with ⟨w, hmem, hcont⟩
    exact List.find?_isSome.mpr ⟨w, hmem, hcont⟩
  rcases Option.isSome_iff_exists.mp hfind with ⟨w, heq⟩
  refine ⟨w, List.mem_of_find?_eq_some heq, List.find?_some heq, ?_, ?_⟩
  · simp [SQLiteConnector.validate_query, hsel, heq]
  · simp [MySQLConnector.validate_query, hsel, heq]

/-- Witness for C1: `select dropped_column from t` is rejected by both
validators because of the `drop` substring inside the identifier. -/
theorem validate_query_rejects_prohibited_substring_witness :
    ∃ w ∈ prohibited,
      containsSub (pyStrip (pyLower "select dropped_column from t")) w = true ∧
      SQLiteConnector.validate_query "select dropped_column from t"
        = .rejected ("'" ++ pyUpper w ++ "' operations are not allowed") ∧
      MySQLConnector.validate_query "select dropped_column from t"
        = .rejected ("'" ++ pyUpper w ++ "' operations are not allowed") :=
  validate_query_rejects_prohibited_substring "select dropped_column from t"
    (by decide) ⟨"drop", by decide, by decide⟩

/-- Claim C6: every query whose lowercased, stripped form does not start
with `select` is rejected by both validators with the message
`Query must start with SELECT`, and the start-token check is
case-insensitive: `SELECT 1`, `Select 1` and `select 1` all pass it. -/
theorem validate_query_rejects_non_select :
    (∀ s : String, pyStartswith (pyStrip (pyLower s)) "select" = false →
      SQLiteConnector.validate_query s = .rejected "Query must start with SELECT" ∧
      MySQLConnector.validate_query s = .rejected "Query must start with SELECT") ∧
    pyStartswith (pyStrip (pyLower "SELECT 1")) "select" = true ∧
    pyStartswith (pyStrip (pyLower "Select 1")) "select" = true ∧
    pyStartswith (pyStrip (pyLower "select 1")) "select" = true := by
  refine ⟨fun s h => ⟨?_, ?_⟩, by decide, by decide, by decide⟩
  · simp [SQLiteConnector.validate_query, h]
  · simp [MySQLConnector.validate_query, h]

/-- Witness for C6: `DROP TABLE t` fails the start-token check and both
validators reject it with the start-with-SELECT message. -/
theorem validate_query_rejects_non_select_witness :
    SQLiteConnector.validate_query "DROP TABLE t"
        = .rejected "Query must start with SELECT" ∧
    MySQLConnector.validate_query "DROP TABLE t"
        = .rejected "Query must start with SELECT" :=
  validate_query_rejects_non_select.1 "DROP TABLE t" (by decide)

/-- A filter value as produced by the UI widgets: an integer from the
numeric input or a string from the text input. -/
inductive FilterValue
  | intVal (n : Int)
  | strVal (s : String)
deriving DecidableEq

/-- Embedding of Python `str(value)` on a filter value. -/
def FilterValue.pyStr : FilterValue → String
  | .intVal n => toString n
  | .strVal s => s

/-- Embedding of Python `isinstance(value, str)`. -/
def FilterValue.isStr : FilterValue → Bool
  | .intVal _ => false
  | .strVal _ => true

/-- One entry of the per-table filter list held in session state:
column name, operator label, value, and the AND/OR logic keyword
(`'AND'` for the first condition by construction). -/
structure FilterItem where
  column : String
  operator : String
  value : FilterValue
  logic : String
deriving DecidableEq

/-- Column quoting of `build_visual_query` (`app.py` 1206-1210):
square brackets for SQLite, backticks otherwise. -/
def quoteColumn (db_type col : String) : String :=
  if db_type == "SQLite" then "[" ++ col ++ "]" else "`" ++ col ++ "`"

/-- Embedding of `column_types.get(column, 'TEXT')` over the
column-name/declared-type association list. -/
def lookupType (column_types : List (String × String)) (col : String) : String :=
  (column_types.lookup col).getD "TEXT"

/-- The numeric type markers of `app.py` line 1214. -/
def numericMarkers : List String :=
  ["INT", "REAL", "NUMERIC", "DECIMAL", "FLOAT", "DOUBLE", "SERIAL", "BIGINT"]

/-- Embedding of `any(x in col_type for x in [...])` (`app.py` 1214). -/
def isNumericType (col_type : String) : Bool :=
  numericMarkers.any (fun x => containsSub col_type x)

/-- Embedding of the per-condition body of the WHERE loop of
`build_visual_query` (`app.py` 1200-1248): quote the column, decide
numeric-vs-text from the declared type, build `quoted_value` (single
quotes doubled for string values on non-numeric columns, bare `str`
otherwise), then dispatch on the operator label; an unrecognized
operator yields no condition (the loop's `continue`). -/
def renderCondition (db_type : String) (column_types : List (String × String))
    (f : FilterItem) : Option String :=
  let quoted_col := quoteColumn db_type f.column
  let col_type := pyUpper (lookupType column_types f.column)
  let is_numeric := isNumericType col_type
  let quoted_value :=
    match f.value, is_numeric with
    | .strVal s, false => "'" ++ replaceChar s '\'' "''" ++ "'"
    | v, _ => v.pyStr
  if f.operator == "equals (=)" then
    some (quoted_col ++ " = " ++ quoted_value)
  else if f.operator == "not equals (!=)" then
    some (quoted_col ++ " != " ++ quoted_value)
  else if f.operator == "greater than (>)" then
    some (quoted_col ++ " > " ++ quoted_value)
  else if f.operator == "less than (<)" then
    some (quoted_col ++ " < " ++ quoted_value)
  else if f.operator == "greater or equal (>=)" then
    some (quoted_col ++ " >= " ++ quoted_value)
  else if f.operator == "less or equal (<=)" then
    some (quoted_col ++ " <= " ++ quoted_value)
  else if f.operator == "contains (LIKE)" then
    some (quoted_col ++ " LIKE '%" ++ replaceChar f.value.pyStr '%' "%%" ++ "%'")
  else if f.operator == "starts with" then
    some (quoted_col ++ " LIKE '" ++ replaceChar f.value.pyStr '%' "%%" ++ "%'")
  else if f.operator == "ends with" then
    some (quoted_col ++ " LIKE '%" ++ replaceChar f.value.pyStr '%' "%%" ++ "'")
  else if f.operator == "is null" then
    some (quoted_col ++ " IS NULL")
  else if f.operator == "is not null" then
    some (quoted_col ++ " IS NOT NULL")
  else
    none

/-- Embedding of the WHERE-clause accumulation of `build_visual_query`
(`app.py` 1199-1254): each rendered condition is appended as-is when its
enumeration index is 0 and prefixed with a space, its own logic keyword
and a space otherwise; skipped conditions still consume an index. -/
def buildWhereList (db_type : String) (column_types : List (String × String))
    (filters : List FilterItem) : List String :=
  filters.enum.filterMap fun p =>
    (renderCondition db_type column_types p.2).map fun c =>
      if p.1 > 0 then " " ++ p.2.logic ++ " " ++ c else c

/-- Embedding of the SQL-construction tail of `build_visual_query`
(`app.py` 1180-1271), parameterized by the UI state it reads: dialect,
table, whether "All Columns" was chosen, the selected column list, the
filter list, the declared column types, and the sort/limit widgets. -/
def build_visual_query (db_type table_name : String)
    (all_columns : Bool) (selected_columns : List String)
    (filters : List FilterItem) (column_types : List (String × String))
    (sort_enabled : Bool) (sort_column : Option String) (sort_direction : String)
    (limit_enabled : Bool) (row_limit : Option Int) : Option String :=
  if selected_columns.isEmpty then none else
  let select_clause :=
    if all_columns then "*"
    else if db_type == "SQLite" then
      pyJoin ", " (selected_columns.map fun col => "[" ++ col ++ "]")
    else
      pyJoin ", " (selected_columns.map fun col => "`" ++ col ++ "`")
  let query :=
    if db_type == "SQLite" then
      "SELECT " ++ select_clause ++ " FROM [" ++ table_name ++ "]"
    else
      "SELECT " ++ select_clause ++ " FROM `" ++ table_name ++ "`"
  let where_conditions := buildWhereList db_type column_types filters
  let query :=
    if !where_conditions.isEmpty then
      query ++ " WHERE " ++ pyJoin "" where_conditions
    else query
  let query :=
    if sort_enabled && pyTruthyStr sort_column then
      let direction := if sort_direction == "Ascending (A-Z)" then "ASC" else "DESC"
      if db_type == "SQLite" then
        query ++ " ORDER BY [" ++ sort_column.getD "" ++ "] " ++ direction
      else
        query ++ " ORDER BY `" ++ sort_column.getD "" ++ "` " ++ direction
    else query
  let query :=
    if limit_enabled && pyTruthyInt row_limit then
      query ++ " LIMIT " ++ toString (row_limit.getD 0)
    else query
  some query

/-- Claim C2: the FilterSet `age > 30` (numeric) OR `city = 'Rome'`
(text) on table `people`, all columns, no sort, no limit, compiles to
exactly the expected SELECT under each dialect. -/
theorem build_visual_query_age_city_example :
    build_visual_query "SQLite" "people" true ["age", "city"]
        [⟨"age", "greater than (>)", .intVal 30, "AND"⟩,
         ⟨"city", "equals (=)", .strVal "Rome", "OR"⟩]
        [("age", "INTEGER"), ("city", "TEXT")] false none "" false none
      = some "SELECT * FROM [people] WHERE [age] > 30 OR [city] = 'Rome'" ∧
    build_visual_query "MySQL" "people" true ["age", "city"]
        [⟨"age", "greater than (>)", .intVal 30, "AND"⟩,
         ⟨"city", "equals (=)", .strVal "Rome", "OR"⟩]
        [("age", "INTEGER"), ("city", "TEXT")] false none "" false none
      = some "SELECT * FROM `people` WHERE `age` > 30 OR `city` = 'Rome'" := by
  constructor <;> decide

/-- Counterexample for C3: with value `O'Brien` and operator
`contains (LIKE)` on a TEXT column, the compiler does not double the
embedded single quote: the claim's expected pattern (quote-doubling
applied on top of `%`-escaping) is not what the code produces. -/
theorem like_value_quote_not_escaped_counterexample :
    renderCondition "SQLite" [("name", "TEXT")]
        ⟨"name", "contains (LIKE)", .strVal "O'Brien", "AND"⟩
      = some "[name] LIKE '%O'Brien%'" ∧
    ¬ (renderCondition "SQLite" [("name", "TEXT")]
        ⟨"name", "contains (LIKE)", .strVal "O'Brien", "AND"⟩
      = some ("[name] LIKE '%" ++
          replaceChar (replaceChar "O'Brien" '%' "%%") '\'' "''" ++ "%'")) := by
  constructor <;> decide

/-- Claim C3 as amended: for every string value used with a LIKE-class
operator, the compiler embeds `str(value)` with each `%` replaced by
`%%` inside the single-quoted pattern; embedded single quotes are left
as-is (the string-literal quote-doubling is not applied on the LIKE
path). -/
theorem like_values_percent_escaped_only (db_type : String)
    (column_types : List (String × String)) (col v logic : String) :
    renderCondition db_type column_types ⟨col, "contains (LIKE)", .strVal v, logic⟩
      = some (quoteColumn db_type col ++ " LIKE '%" ++ replaceChar v '%' "%%" ++ "%'") ∧
    renderCondition db_type column_types ⟨col, "starts with", .strVal v, logic⟩
      = some (quoteColumn db_type col ++ " LIKE '" ++ replaceChar v '%' "%%" ++ "%'") ∧
    renderCondition db_type column_types ⟨col, "ends with", .strVal v, logic⟩
      = some (quoteColumn db_type col ++ " LIKE '%" ++ replaceChar v '%' "%%" ++ "'") := by
  refine ⟨rfl, rfl, rfl⟩

/-- Claim C7: on a column whose declared type is not in the numeric
family, every comparison operator renders a string value as a
single-quoted literal with each embedded single quote doubled. -/
theorem text_comparison_values_quote_escaped (db_type : String)
    (column_types : List (String × String)) (col v logic : String)
    (h : isNumericType (pyUpper (lookupType column_types col)) = false) :
    renderCondition db_type column_types ⟨col, "equals (=)", .strVal v, logic⟩
      = some (quoteColumn db_type col ++ " = " ++ ("'" ++ replaceChar v '\'' "''" ++ "'")) ∧
    renderCondition db_type column_types ⟨col, "not equals (!=)", .strVal v, logic⟩
      = some (quoteColumn db_type col ++ " != " ++ ("'" ++ replaceChar v '\'' "''" ++ "'")) ∧
    renderCondition db_type column_types ⟨col, "greater than (>)", .strVal v, logic⟩
      = some (quoteColumn db_type col ++ " > " ++ ("'" ++ replaceChar v '\'' "''" ++ "'")) ∧
    renderCondition db_type column_types ⟨col, "less than (<)", .strVal v, logic⟩
      = some (quoteColumn db_type col ++ " < " ++ ("'" ++ replaceChar v '\'' "''" ++ "'")) ∧
    renderCondition db_type column_types ⟨col, "greater or equal (>=)", .strVal v, logic⟩
      = some (quoteColumn db_type col ++ " >= " ++ ("'" ++ replaceChar v '\'' "''" ++ "'")) ∧
    renderCondition db_type column_types ⟨col, "less or equal (<=)", .strVal v, logic⟩
      = some (quoteColumn db_type col ++ " <= " ++ ("'" ++ replaceChar v '\'' "''" ++ "'")) := by
  refine ⟨?_, ?_, ?_, ?_, ?_, ?_⟩ <;> simp [renderCondition, h]

/-- Witness for C7: `O'Brien` on the TEXT column `name` compiles to the
doubled-quote literal under every comparison operator. -/
theorem text_comparison_values_quote_escaped_witness :
    renderCondition "SQLite" [("name", "TEXT")] ⟨"name", "equals (=)", .strVal "O'Brien", "AND"⟩
      = some (quoteColumn "SQLite" "name" ++ " = " ++ ("'" ++ replaceChar "O'Brien" '\'' "''" ++ "'")) ∧
    renderCondition "SQLite" [("name", "TEXT")] ⟨"name", "not equals (!=)", .strVal "O'Brien", "AND"⟩
      = some (quoteColumn "SQLite" "name" ++ " != " ++ ("'" ++ replaceChar "O'Brien" '\'' "''" ++ "'")) ∧
    renderCondition "SQLite" [("name", "TEXT")] ⟨"name", "greater than (>)", .strVal "O'Brien", "AND"⟩
      = some (quoteColumn "SQLite" "name" ++ " > " ++ ("'" ++ replaceChar "O'Brien" '\'' "''" ++ "'")) ∧
    renderCondition "SQLite" [("name", "TEXT")] ⟨"name", "less than (<)", .strVal "O'Brien", "AND"⟩
      = some (quoteColumn "SQLite" "name" ++ " < " ++ ("'" ++ replaceChar "O'Brien" '\'' "''" ++ "'")) ∧
    renderCondition "SQLite" [("name", "TEXT")] ⟨"name", "greater or equal (>=)", .strVal "O'Brien", "AND"⟩
      = some (quoteColumn "SQLite" "name" ++ " >= " ++ ("'" ++ replaceChar "O'Brien" '\'' "''" ++ "'")) ∧
    renderCondition "SQLite" [("name", "TEXT")] ⟨"name", "less or equal (<=)", .strVal "O'Brien", "AND"⟩
      = some (quoteColumn "SQLite" "name" ++ " <= " ++ ("'" ++ replaceChar "O'Brien" '\'' "''" ++ "'")) :=
  text_comparison_values_quote_escaped "SQLite" [("name", "TEXT")] "name" "O'Brien" "AND" (by decide)

/-- The operator labels the WHERE loop recognizes (`app.py` 1225-1246);
anything else falls to the `continue` branch. -/
def recognizedOperators : List String :=
  ["equals (=)", "not equals (!=)", "greater than (>)", "less than (<)",
   "greater or equal (>=)", "less or equal (<=)", "contains (LIKE)",
   "starts with", "ends with", "is null", "is not null"]

/-- A condition whose operator label is unrecognized renders to nothing. -/
theorem renderCondition_eq_none (db_type : String)
    (column_types : List (String × String)) (f : FilterItem)
    (h : ¬ f.operator ∈ recognizedOperators) :
    renderCondition db_type column_types f = none := by
  simp [recognizedOperators] at h
  obtain ⟨h1, h2, h3, h4, h5, h6, h7, h8, h9, h10, h11⟩ := h
  simp [renderCondition, h1, h2, h3, h4, h5, h6, h7, h8, h9, h10, h11]

/-- Claim C10: a condition with an unrecognized operator is silently
dropped while SQL is still produced, and because the skipped condition
still consumed enumeration index 0, the following condition keeps its
leading logic keyword, so the WHERE clause starts with it. -/
theorem build_visual_query_skips_unrecognized_operator
    (table : String) (cols : List String) (ct : List (String × String))
    (f1 f2 : FilterItem) (c c' : String)
    (hcols : cols.isEmpty = false)
    (hop : ¬ f1.operator ∈ recognizedOperators)
    (h2s : renderCondition "SQLite" ct f2 = some c)
    (h2m : renderCondition "MySQL" ct f2 = some c') :
    build_visual_query "SQLite" table true cols [f1, f2] ct false none "" false none
      = some ("SELECT * FROM [" ++ table ++ "]" ++ " WHERE " ++ (" " ++ f2.logic ++ " " ++ c)) ∧
    build_visual_query "MySQL" table true cols [f1, f2] ct false none "" false none
      = some ("SELECT * FROM `" ++ table ++ "`" ++ " WHERE " ++ (" " ++ f2.logic ++ " " ++ c')) := by
  have hn := renderCondition_eq_none "SQLite" ct f1 hop
  have hn' := renderCondition_eq_none "MySQL" ct f1 hop
  constructor
  · simp [build_visual_query, hcols, buildWhereList, List.enum, List.enumFrom, hn, h2s, pyJoin]
  · simp [build_visual_query, hcols, buildWhereList, List.enum, List.enumFrom, hn', h2m, pyJoin]

/-- Witness for C10: a first condition with operator label `between` is
dropped and the produced WHERE clause starts with the second
condition's `OR` (note the doubled space after `WHERE`). -/
theorem build_visual_query_skips_unrecognized_operator_witness :
    build_visual_query "SQLite" "t" true ["city"]
        [⟨"city", "between", .strVal "x", "AND"⟩,
         ⟨"city", "equals (=)", .strVal "Rome", "OR"⟩]
        [("city", "TEXT")] false none "" false none
      = some "SELECT * FROM [t] WHERE  OR [city] = 'Rome'" ∧
    build_visual_query "MySQL" "t" true ["city"]
        [⟨"city", "between", .strVal "x", "AND"⟩,
         ⟨"city", "equals (=)", .strVal "Rome", "OR"⟩]
        [("city", "TEXT")] false none "" false none
      = some "SELECT * FROM `t` WHERE  OR `city` = 'Rome'" :=
  build_visual_query_skips_unrecognized_operator "t" ["city"] [("city", "TEXT")]
    ⟨"city", "between", .strVal "x", "AND"⟩ ⟨"city", "equals (=)", .strVal "Rome", "OR"⟩
    "[city] = 'Rome'" "`city` = 'Rome'" (by decide) (by decide) (by decide) (by decide)

/-- Embedding of the query construction of `SQLiteConnector.get_table_data`
(`app.py` 109-128): a truthy custom query is used verbatim; otherwise a
`SELECT *` is built with `LIMIT` guarded by the truthiness test
`if limit:` and `OFFSET` nested under it. -/
def SQLiteConnector.build_data_query (table_name : String)
    (custom_query : Option String) (limit offset : Option Int) : String :=
  if pyTruthyStr custom_query then custom_query.getD "" else
  let query := "SELECT * FROM [" ++ table_name ++ "]"
  if pyTruthyInt limit then
    let query := query ++ " LIMIT " ++ toString (limit.getD 0)
    if pyTruthyInt offset then query ++ " OFFSET " ++ toString (offset.getD 0)
    else query
  else query

/-- Embedding of the query construction of `MySQLConnector.get_table_data`
(`app.py` 515-538): same shape, but `LIMIT` guarded by
`if limit is not None:` and `OFFSET` by `if offset is not None:`. -/
def MySQLConnector.build_data_query (table_name : String)
    (custom_query : Option String) (limit offset : Option Int) : String :=
  if pyTruthyStr custom_query then custom_query.getD "" else
  let query := "SELECT * FROM `" ++ table_name ++ "`"
  if limit.isSome then
    let query := query ++ " LIMIT " ++ toString (limit.getD 0)
    if offset.isSome then query ++ " OFFSET " ++ toString (offset.getD 0)
    else query
  else query

/-- Claim C9: with no custom query and `limit = 0` the SQLite connector
omits the LIMIT clause while the MySQL connector emits `LIMIT 0`, and
with no limit at all neither connector emits an OFFSET clause whatever
the offset argument is. -/
theorem get_table_data_limit_guards (t : String) (off : Option Int) :
    SQLiteConnector.build_data_query t none (some 0) off
      = "SELECT * FROM [" ++ t ++ "]" ∧
    MySQLConnector.build_data_query t none (some 0) none
      = "SELECT * FROM `" ++ t ++ "`" ++ " LIMIT " ++ "0" ∧
    SQLiteConnector.build_data_query t none none off
      = "SELECT * FROM [" ++ t ++ "]" ∧
    MySQLConnector.build_data_query t none none off
      = "SELECT * FROM `" ++ t ++ "`" := by
  refine ⟨rfl, rfl, rfl, rfl⟩

/-- The mutable attributes of a `SQLiteConnector`: only the database
path. The inherited `self.connection` and `self.engine` slots stay
`None` for this connector (it never assigns them), so they carry no
state worth modelling. -/
structure SQLiteConnectorState where
  db_path : String
deriving DecidableEq

/-- How a SQLite data fetch touches the outside world: a fresh
connection to the file at `db_path` running the built query. -/
inductive SQLiteFetch
  | viaFile (path : String) (query : String)
deriving DecidableEq

/-- Embedding of `SQLiteConnector.get_table_data` (`app.py` 109-128):
every call opens its own connection from `db_path`. -/
def SQLiteConnector.get_table_data (st : SQLiteConnectorState)
    (table : String) (custom : Option String) (limit offset : Option Int) :
    SQLiteFetch :=
  .viaFile st.db_path (SQLiteConnector.build_data_query table custom limit offset)

/-- Embedding of the inherited `DatabaseConnector.disconnect`
(`app.py` 59-70) as seen by a SQLite connector: it closes
`self.connection` and disposes `self.engine`, both `None` here, and
changes no attribute (in particular `db_path`); `connect` never mutates
state either, so this is the identity on the modelled state. -/
def SQLiteConnector.disconnect (st : SQLiteConnectorState) : SQLiteConnectorState :=
  st

/-- The mutable attributes of a `MySQLConnector` read by the data path:
`self.connection_config` (set by the mysql-connector path, cleared by
`disconnect`) and `self.engine` (set by the SQLAlchemy path; disposed
but never cleared by `disconnect`). Both are abstracted to an optional
identifier. -/
structure MySQLConnectorState where
  connection_config : Option String
  engine : Option String
deriving DecidableEq

/-- How a MySQL data fetch touches the outside world. -/
inductive MySQLFetch
  | viaEngine (engine : String) (query : String)
  | viaConfig (config : String) (query : String)
  | failure
deriving DecidableEq

/-- Embedding of `MySQLConnector.get_table_data` (`app.py` 515-538)
together with `_get_connection` (`app.py` 480-493): go through the
SQLAlchemy engine when it is set, else open a fresh connection from the
stored config, else fail (the `None` return). -/
def MySQLConnector.get_table_data (st : MySQLConnectorState)
    (table : String) (custom : Option String) (limit offset : Option Int) :
    MySQLFetch :=
  let query := MySQLConnector.build_data_query table custom limit offset
  match st.engine with
  | some e => .viaEngine e query
  | none =>
    match st.connection_config with
    | some cfg => .viaConfig cfg query
    | none => .failure

/-- Embedding of `MySQLConnector.disconnect` (`app.py` 613-617): the
inherited close/dispose plus `self.connection_config = None`; the
`engine` attribute is not cleared. -/
def MySQLConnector.disconnect (st : MySQLConnectorState) : MySQLConnectorState :=
  { connection_config := none, engine := st.engine }

/-- Counterexample for C4: after a SQLAlchemy-path connect (`engine`
set, `connection_config` never set), `disconnect` leaves the engine
attribute in place, so a subsequent `get_table_data` still issues the
query through the engine, while a never-connected connector fails
without issuing anything. -/
theorem execute_after_disconnect_counterexample :
    MySQLConnector.get_table_data
        (MySQLConnector.disconnect { connection_config := none, engine := some "eng" })
        "t" none none none
      ≠ MySQLConnector.get_table_data
        { connection_config := none, engine := none } "t" none none none := by
  decide

/-- Claim C4 as amended: executing after `disconnect` matches executing
on a never-connected, identically-configured connector for the SQLite
connector always (its state is just the immutable `db_path`), and for
the MySQL connector whenever the SQLAlchemy `engine` is unset (the
mysql-connector path, whose stored config `disconnect` clears); a
surviving engine is the exception shown in the counterexample. -/
theorem execute_after_disconnect_amended :
    (∀ (st : SQLiteConnectorState) (table : String) (custom : Option String)
        (limit offset : Option Int),
      SQLiteConnector.get_table_data (SQLiteConnector.disconnect st)
          table custom limit offset
        = SQLiteConnector.get_table_data st table custom limit offset) ∧
    (∀ (cfg : Option String) (table : String) (custom : Option String)
        (limit offset : Option Int),
      MySQLConnector.get_table_data
          (MySQLConnector.disconnect { connection_config := cfg, engine := none })
          table custom limit offset
        = MySQLConnector.get_table_data
          { connection_config := none, engine := none } table custom limit offset) :=
  ⟨fun _ _ _ _ _ => rfl, fun _ _ _ _ _ => rfl⟩

/-- Observable side effects of `SQLiteConnector.connect` (`app.py`
77-90), in order: the `os.path.exists` check and the `sqlite3.connect`
open attempt. A network-probe effect (used only by the MySQL
connector's pre-flight check) is included so that its absence is
statable. -/
inductive ConnectEffect
  | checkExists (path : String)
  | openFile (path : String)
  | netProbe (hostport : String)
deriving DecidableEq

/-- Result of a modelled `connect`: the returned boolean, the error
message shown, and the trace of attempted effects. -/
structure ConnectOutcome where
  ok : Bool
  errorMsg : Option String
  effects : List ConnectEffect
deriving DecidableEq

/-- Embedding of `SQLiteConnector.connect` (`app.py` 77-90) over an
abstract filesystem (`fsExists`) and an abstract open attempt
(`openOk`, with `excText` the exception text when the open raises):
the existence check runs first and a missing file returns immediately;
otherwise a test connection is opened and closed. -/
def SQLiteConnector.connect (fsExists openOk : String → Bool)
    (excText : String) (db_path : String) : ConnectOutcome :=
  if !(fsExists db_path) then
    { ok := false
      errorMsg := some ("Database file not found: " ++ db_path)
      effects := [.checkExists db_path] }
  else if openOk db_path then
    { ok := true, errorMsg := none
      effects := [.checkExists db_path, .openFile db_path] }
  else
    { ok := false
      errorMsg := some ("Error connecting to SQLite database: " ++ excText)
      effects := [.checkExists db_path, .openFile db_path] }

/-- Claim C8: connecting a SQLite connector to a non-existent path
returns false with the file-not-found configuration error, and the only
effect is the existence check itself — no open attempt, no network
probe. -/
theorem sqlite_connect_missing_file (fsExists openOk : String → Bool)
    (excText p : String) (h : fsExists p = false) :
    SQLiteConnector.connect fsExists openOk excText p
      = { ok := false
          errorMsg := some ("Database file not found: " ++ p)
          effects := [ConnectEffect.checkExists p] } := by
  simp [SQLiteConnector.connect, h]

/-- Witness for C8: on a filesystem with no files, connecting to
`missing.db` fails with the file-not-found error after only the
existence check. -/
theorem sqlite_connect_missing_file_witness :
    SQLiteConnector.connect (fun _ => false) (fun _ => true) "" "missing.db"
      = { ok := false
          errorMsg := some ("Database file not found: " ++ "missing.db")
          effects := [ConnectEffect.checkExists "missing.db"] } :=
  sqlite_connect_missing_file (fun _ => false) (fun _ => true) "" "missing.db" rfl

/-- The catalog query issued by `SQLiteConnector.get_tables`
(`app.py` 101). -/
def sqlite_tables_query : String :=
  "SELECT name FROM sqlite_master WHERE type='table' ORDER BY name"

/-- The catalog query issued by the plain-connection path of
`MySQLConnector.get_tables` (`app.py` 506). -/
def mysql_tables_query : String := "SHOW TABLES"

/-- Modelled from the spec: the external SQLite engine's evaluation of
the connector's catalog query. The repository contains no engine; per
the `ORDER BY name` in the issued statement and the spec's contract
(`list_tables` returns table names sorted ascending), the engine
answers the catalog sorted ascending by name; other statements are out
of scope here. -/
def sqliteEngineTables (catalog : List String) (q : String) : List String :=
  if q = sqlite_tables_query then catalog.insertionSort (· ≤ ·) else catalog

/-- Modelled from the spec: the external MySQL engine's response to
`SHOW TABLES`, which lists the tables of the default database sorted
ascending by name under the dialect's catalog case rules. -/
def mysqlEngineTables (catalog : List String) (q : String) : List String :=
  if q = mysql_tables_query then catalog.insertionSort (· ≤ ·) else catalog

/-- Embedding of `SQLiteConnector.get_tables` (`app.py` 96-107): run
the catalog query on a fresh connection and return the first column of
each row. -/
def SQLiteConnector.get_tables (catalog : List String) : List String :=
  sqliteEngineTables catalog sqlite_tables_query

/-- Modelled from the spec: SQLAlchemy's
`inspect(self.engine).get_table_names()` for a MySQL engine — an
external library call absent from the repository. Per the spec's
`list_tables` contract and the MySQL catalog it reads, it returns the
default database's table names sorted ascending. -/
def inspectorGetTableNames (catalog : List String) : List String :=
  catalog.insertionSort (· ≤ ·)

/-- Embedding of `MySQLConnector.get_tables` (`app.py` 495-513): with a
SQLAlchemy engine set, return `inspect(self.engine).get_table_names()`
(lines 498-500); otherwise run `SHOW TABLES` over a fresh connection
built from the stored config, returning the first column of each row,
and return `[]` when `_get_connection` yields no connection (lines
502-510). -/
def MySQLConnector.get_tables (st : MySQLConnectorState)
    (catalog : List String) : List String :=
  match st.engine with
  | some _ => inspectorGetTableNames catalog
  | none =>
    match st.connection_config with
    | some _ => mysqlEngineTables catalog mysql_tables_query
    | none => []

/-- Claim C5: both connectors return the table list sorted ascending —
the MySQL connector on every connection state, so on the SQLAlchemy
inspector path and the `SHOW TABLES` path alike (and vacuously, as the
empty list, when no connection can be made). -/
theorem get_tables_sorted (catalog : List String) (st : MySQLConnectorState) :
    (SQLiteConnector.get_tables catalog).Sorted (· ≤ ·) ∧
    (MySQLConnector.get_tables st catalog).Sorted (· ≤ ·) := by
  constructor
  · simpa [SQLiteConnector.get_tables, sqliteEngineTables] using
      List.sorted_insertionSort (α := String) (· ≤ ·) catalog
  · rcases st with ⟨cfg, eng⟩
    rcases eng with _ | e
    · rcases cfg with _ | c
      · simp [MySQLConnector.get_tables]
      · simpa [MySQLConnector.get_tables, mysqlEngineTables] using
          List.sorted_insertionSort (α := String) (· ≤ ·) catalog
    · simpa [MySQLConnector.get_tables, inspectorGetTableNames] using
        List.sorted_insertionSort (α := String) (· ≤ ·) catalog
